import Mathlib

/-!
# Verification of the lighthouse-integration MCP server

A shallow embedding of the dispatcher (`src/index.ts`, `CallToolRequestSchema`
handler), the browser session manager (`openBrowser` / `getCurrentPage`), and
the audit runner (`src/lighthouse-handler.ts`: `runLighthouse`,
`extractKeyMetrics`), together with theorems about their behaviour.

JavaScript values flowing through the handlers are modelled by the inductive
type `JVal` (JSON-like values plus `undefined` and `NaN`); thrown exceptions
are modelled by `Except String`; the external engines (chrome-launcher, the
lighthouse audit engine, the filesystem) are modelled by an `ExtBehavior`
record of oracles, so every exit path of the code becomes a case of a pure
function.
-/

/-- A JavaScript value as it appears in the handlers: JSON values plus the
distinguished `undefined` (absent property) and `NaN`. Numbers are modelled
as rationals. -/
inductive JVal where
  | undef
  | null
  | nan
  | bool (b : Bool)
  | num (q : ℚ)
  | str (s : String)
  | arr (elems : List JVal)
  | obj (fields : List (String × JVal))
deriving Repr

namespace JVal

/-- JavaScript truthiness: `undefined`, `null`, `NaN`, `false`, `0` and `""`
are falsy; every object and array (even empty) is truthy. -/
def truthy : JVal → Bool
  | undef => false
  | null => false
  | nan => false
  | bool b => b
  | num q => q != 0
  | str s => s != ""
  | arr _ => true
  | obj _ => true

/-- Property access `v[k]`: looks `k` up among an object's fields, yielding
`undefined` when the key is absent or the value is not an object. (In the
source every such access is guarded so that it never occurs on
`null`/`undefined`.) -/
def get : JVal → String → JVal
  | obj fields, k =>
    match fields.lookup k with
    | some v => v
    | none => undef
  | _, _ => undef

end JVal

/-- JavaScript `Math.round` on a finite number: round half toward positive
infinity, i.e. `⌊x + 1/2⌋`. -/
def mathRound (q : ℚ) : ℤ := ⌊q + 1/2⌋

/-- JavaScript `Math.round(score * 100)` applied to a score value, as in
`Math.round(results.categories.performance.score * 100)`. JS coerces `null`
to `0`, and any other non-numeric score yields `NaN`. -/
def roundTimes100 : JVal → JVal
  | JVal.num q => JVal.num ((mathRound (q * 100) : ℤ) : ℚ)
  | JVal.null => JVal.num 0
  | _ => JVal.nan

/-- One of the four category blocks of `extractKeyMetrics`: when
`results.categories?.[k]` is truthy, contribute the field `mk` holding the
rounded score, else contribute nothing. -/
def catEntry (results : JVal) (k mk : String) : List (String × JVal) :=
  if ((results.get "categories").get k).truthy then
    [(mk, roundTimes100 (((results.get "categories").get k).get "score"))]
  else []

/-- The four category-score fields of `extractKeyMetrics`, in source order. -/
def categoryEntries (results : JVal) : List (String × JVal) :=
  catEntry results "performance" "performanceScore" ++
  catEntry results "accessibility" "accessibilityScore" ++
  catEntry results "best-practices" "bestPracticesScore" ++
  catEntry results "seo" "seoScore"

/-- The `keyAudits` array of `extractKeyMetrics`. -/
def keyAudits : List String :=
  ["first-contentful-paint", "largest-contentful-paint", "total-blocking-time",
   "cumulative-layout-shift", "speed-index", "interactive"]

/-- One iteration of the `for (const audit of keyAudits)` loop: when
`results.audits[audit]` is truthy, contribute the `{score, value,
displayValue}` entry under the audit's key. -/
def auditEntry (audits : JVal) (k : String) : List (String × JVal) :=
  if (audits.get k).truthy then
    [(k, JVal.obj [("score", (audits.get k).get "score"),
                   ("value", (audits.get k).get "numericValue"),
                   ("displayValue", (audits.get k).get "displayValue")])]
  else []

/-- Method `LighthouseHandler.extractKeyMetrics`: soft failure on a falsy input or a
falsy/absent `audits` section, otherwise the metrics object built from the
four category blocks followed by the key-audit loop. -/
def extractKeyMetrics (results : JVal) : JVal :=
  if !results.truthy || !(results.get "audits").truthy then
    JVal.obj [("error", JVal.str "Invalid Lighthouse results")]
  else
    JVal.obj (categoryEntries results ++
      keyAudits.foldr (fun k acc => auditEntry (results.get "audits") k ++ acc) [])

-- scratch tests
example : roundTimes100 (JVal.num (873/1000)) = JVal.num 87 := by
  norm_num [roundTimes100, mathRound]
example : roundTimes100 (JVal.num 1) = JVal.num 100 := by
  norm_num [roundTimes100, mathRound]
example : extractKeyMetrics JVal.null
    = JVal.obj [("error", JVal.str "Invalid Lighthouse results")] := rfl
example : extractKeyMetrics (JVal.obj [("audits", JVal.obj [("interactive",
      JVal.obj [("score", JVal.num 1), ("numericValue", JVal.num 5), ("displayValue", JVal.str "5 s")])])])
    = JVal.obj [("interactive", JVal.obj [("score", JVal.num 1), ("value", JVal.num 5), ("displayValue", JVal.str "5 s")])] := rfl

/-! ## Tool dispatch (`src/index.ts`, `CallToolRequestSchema` handler)

A tool handler either returns a value or throws (`Except.error` carries the
exception's `message`). The registry models the `tools` object literal, an
association of tool names to handlers. Because `tools` is a plain object, the
guard `!(tool in tools)` uses the JS `in` operator, which sees own keys AND
the properties inherited from `Object.prototype` (`toString`, `valueOf`,
`hasOwnProperty`, `constructor`, ...), and `tools[tool]` resolves an own
property first and an inherited one otherwise. The prototype is therefore a
second association list parameter: each inherited member is modelled by its
behaviour when invoked as `tools[name](args)` (a non-callable inherited value
makes the call throw a TypeError, modelled as `Except.error`). -/

/-- A tool handler: `args → result`, where a thrown exception is
`Except.error message`. -/
def ToolHandler : Type := JVal → Except String JVal

/-- The `CallToolRequestSchema` handler: when the name is neither an own key
of the registry nor inherited from the prototype, `tool in tools` is false
and the `{error: "Tool <name> not found"}` envelope is returned; otherwise
`tools[tool]` (own property first, inherited otherwise) runs inside
`try`/`catch`, its return value wrapped as `{result: ...}` and any thrown
exception's message as `{error: ...}`. The function is total: no path
throws. -/
def dispatch (tools proto : List (String × ToolHandler)) (name : String)
    (args : JVal) : JVal :=
  match tools.lookup name, proto.lookup name with
  | none, none =>
    JVal.obj [("error", JVal.str ("Tool " ++ name ++ " not found"))]
  | some handler, _ | none, some handler =>
    match handler args with
    | Except.ok result => JVal.obj [("result", result)]
    | Except.error msg => JVal.obj [("error", JVal.str msg)]

/-- The `toString` member inherited from `Object.prototype`: invoked as
`tools["toString"](args)` on a plain object literal it ignores its arguments
and returns the string `[object Object]`. -/
def objectProtoToString : ToolHandler := fun _ => Except.ok (JVal.str "[object Object]")

/-! ## Browser session manager (`src/index.ts`: `openBrowser`, `getCurrentPage`)

The module-level mutable state `browser` / `pages` / `pageId` becomes a
`SessionState` record threaded explicitly. Browser and page handles are
opaque; fresh ones are drawn from counters so that distinct `newPage` calls
yield distinct handles. -/

/-- The module-level state of `src/index.ts`: the optional browser instance,
the page table (`Map` insertion order preserved), and the page-id counter.
`nextBrowser` / `nextPage` are the supplies of fresh opaque handles. -/
structure SessionState where
  browser : Option ℕ
  pages : List (String × ℕ)
  pageId : ℕ
  nextBrowser : ℕ
  nextPage : ℕ
deriving DecidableEq, Repr

/-- The state at module load: `browser = null`, `pages = new Map()`,
`pageId = 0`. -/
def initState : SessionState :=
  { browser := none, pages := [], pageId := 0, nextBrowser := 0, nextPage := 0 }

/-- Function `openBrowser`: closes any previous browser (an external effect, swallowed
on failure), launches a fresh one, and resets the page table and the id
counter to zero. -/
def openBrowser (s : SessionState) : SessionState :=
  { browser := some s.nextBrowser,
    pages := [],
    pageId := 0,
    nextBrowser := s.nextBrowser + 1,
    nextPage := s.nextPage }

/-- Function `getCurrentPage`: lazily opens the browser when absent, computes the key
`page_<pageId>`, creates and stores a fresh page under that key when absent,
and returns the stored handle. -/
def getCurrentPage (s : SessionState) : ℕ × SessionState :=
  let s1 := match s.browser with
    | none => openBrowser s
    | some _ => s
  let key := "page_" ++ toString s1.pageId
  match s1.pages.lookup key with
  | some p => (p, s1)
  | none =>
    let p := s1.nextPage
    (p, { s1 with pages := s1.pages ++ [(key, p)], nextPage := s1.nextPage + 1 })

/-- The state-relevant operations a caller can perform: an explicit
`openBrowser`, or a browser-automation tool call (each of navigate,
screenshot, click, fill, select, hover, evaluate begins with exactly one
`getCurrentPage`). -/
inductive SessionOp where
  | openBrowserOp
  | toolCallOp
deriving DecidableEq, Repr

/-- Apply one operation to the session state. -/
def applyOp : SessionOp → SessionState → SessionState
  | SessionOp.openBrowserOp, s => openBrowser s
  | SessionOp.toolCallOp, s => (getCurrentPage s).2

/-- Run a sequence of operations from a state. -/
def runOps : List SessionOp → SessionState → SessionState
  | [], s => s
  | op :: ops, s => runOps ops (applyOp op s)

/-- A session state that can arise from the module-load state by some
sequence of `openBrowser` calls and tool calls. -/
def Reachable (s : SessionState) : Prop :=
  ∃ ops, runOps ops initState = s

/-- Handle and state after `n + 1` successive `getCurrentPage` calls (one per
browser-automation tool call) with no intervening `openBrowser`. -/
def callN : ℕ → SessionState → ℕ × SessionState
  | 0, s => getCurrentPage s
  | n + 1, s => callN n (getCurrentPage s).2

/-- Invariant of the session state: the id counter is never advanced, so it
stays `0`, and the page table is empty or the single entry `page_0`. -/
def SessionInv (s : SessionState) : Prop :=
  s.pageId = 0 ∧ (s.pages = [] ∨ ∃ p, s.pages = [("page_0", p)])

-- scratch tests
example : (getCurrentPage initState).1 = 0 := rfl
example : (getCurrentPage initState).2.pages = [("page_0", 0)] := rfl
example : (callN 3 initState).1 = 0 := rfl
example : dispatch [] [] "nope" JVal.null
    = JVal.obj [("error", JVal.str "Tool nope not found")] := rfl

/-! ## Audit runner (`src/lighthouse-handler.ts`: `runLighthouse`)

External calls (chrome-launcher, the lighthouse engine, `fs.writeFileSync`,
`new Date().toISOString()`) are modelled by an `ExtBehavior` record of
oracles; `runLighthouse` then becomes a pure function producing an
`AuditTrace` that records the configuration handed to the engine, the file
write, whether the dedicated Chrome instance was killed, and the returned
value or thrown exception. -/

/-- The `LighthouseOptions` interface. `none` is an absent/undefined field,
to which the destructuring defaults of `runLighthouse` apply. -/
structure LighthouseOptions where
  url : String
  categories : Option (List String) := none
  format : Option String := none
  outputPath : Option String := none
  onlyCategories : Option Bool := none
deriving DecidableEq, Repr

/-- The configuration object handed to the lighthouse engine:
`{port, output: format, onlyCategories: onlyCategories ? categories :
undefined, logLevel: 'info'}`. -/
structure LHConfig where
  port : ℕ
  output : String
  onlyCategories : Option (List String)
  logLevel : String
deriving DecidableEq, Repr

/-- Build the lighthouse configuration from the resolved port, the output
format, and the (possibly undefined) category restriction. -/
def mkLHConfig (port : ℕ) (format : String) (onlyCats : Option (List String)) : LHConfig :=
  { port := port, output := format, onlyCategories := onlyCats, logLevel := "info" }

/-- What the lighthouse engine returns: `result.lhr` (the structured report)
and `result.report` (the rendered report body, possibly absent). -/
structure RunResult where
  lhr : JVal
  report : JVal
deriving Repr

/-- The external world as observed by one `runLighthouse` call:
the chrome-launcher outcome (`ok port` or a thrown error), the engine's
response to a configuration, the filesystem's response to a write, and the
current ISO-8601 timestamp. -/
structure ExtBehavior where
  launch : Except String ℕ
  engine : LHConfig → Except String RunResult
  write : String → JVal → Except String Unit
  now : String

/-- Model of `path.join(dir, name)` for a directory path and a file name. -/
def pathJoin (dir name : String) : String :=
  dir ++ "/" ++ name

/-- The timestamp mangling `toISOString().replace(/:/g, '-')`: a global
replacement of the single character `:` by `-`. -/
def replaceColons (s : String) : String :=
  String.mk (s.data.map fun c => if c = ':' then '-' else c)

/-- The report file name
`lighthouse-<toISOString with colons replaced by dashes>.<format>`. -/
def reportFileName (now format : String) : String :=
  "lighthouse-" ++ replaceColons now ++ "." ++ format

/-- The `if (outputPath && result.report)` write step of `runLighthouse`:
when the output path and the report body are both truthy, write the report to
the timestamped file under the output path (a write failure propagates as an
exception); record the successful write. -/
def maybeWriteReport (ext : ExtBehavior) (outputPath : Option String)
    (format : String) (report : JVal) : Except String (Option (String × JVal)) :=
  match outputPath with
  | none => Except.ok none
  | some op =>
    if op != "" && report.truthy then
      let outputFile := pathJoin op (reportFileName ext.now format)
      match ext.write outputFile report with
      | Except.error msg => Except.error msg
      | Except.ok _ => Except.ok (some (outputFile, report))
    else Except.ok none

/-- String truthiness of an optional output path, as tested by
`outputPath ? ... : ...`. -/
def optStrTruthy : Option String → Bool
  | none => false
  | some s => s != ""

/-- The non-json return value of `runLighthouse`:
`{success: true, format, ...(outputPath ? {filePath: outputPath} : {}),
report: result.report}`. -/
def summaryEnvelope (format : String) (outputPath : Option String) (report : JVal) : JVal :=
  JVal.obj ([("success", JVal.bool true), ("format", JVal.str format)]
    ++ (if optStrTruthy outputPath then [("filePath", JVal.str (outputPath.getD ""))] else [])
    ++ [("report", report)])

/-- Everything observable about one `runLighthouse` call. `config` is the
configuration handed to the engine (absent when chrome-launcher threw before
the `try` block was entered), `written` the successfully written report file,
`killed` whether `chrome.kill()` ran, and `outcome` the returned value or the
propagated exception. -/
structure AuditTrace where
  config : Option LHConfig
  written : Option (String × JVal)
  killed : Bool
  outcome : Except String JVal

/-- Method `LighthouseHandler.runLighthouse`: applies the destructuring
defaults, launches a dedicated Chrome, builds the engine configuration, runs
the engine, optionally writes the report file, and returns `result.lhr` for
json format or the summary envelope otherwise; the `finally` block kills the
dedicated Chrome on success and on every exception thrown inside the `try`. -/
def runLighthouse (opts : LighthouseOptions) (ext : ExtBehavior) : AuditTrace :=
  let categories := opts.categories.getD
    ["performance", "accessibility", "best-practices", "seo"]
  let format := opts.format.getD "json"
  let onlyCategories := opts.onlyCategories.getD false
  match ext.launch with
  | Except.error msg =>
    { config := none, written := none, killed := false, outcome := Except.error msg }
  | Except.ok port =>
    let config := mkLHConfig port format (if onlyCategories then some categories else none)
    let body : Except String (Option (String × JVal) × JVal) :=
      match ext.engine config with
      | Except.error msg => Except.error msg
      | Except.ok result =>
        match maybeWriteReport ext opts.outputPath format result.report with
        | Except.error msg => Except.error msg
        | Except.ok written =>
          if format = "json" then
            Except.ok (written, result.lhr)
          else
            Except.ok (written, summaryEnvelope format opts.outputPath result.report)
    { config := some config,
      written := match body with
        | Except.ok (w, _) => w
        | Except.error _ => none,
      killed := true,
      outcome := body.map Prod.snd }

/-! ## Lighthouse tool handlers (`src/index.ts`) -/

/-- A JavaScript `x || default` on an optional string argument: the default
replaces both an absent and an empty (falsy) string. -/
def strOrDefault (v : Option String) (d : String) : String :=
  match v with
  | none => d
  | some s => if s = "" then d else s

/-- The arguments of a `lighthouse_analyze` call; `none` is an absent
argument. -/
structure AnalyzeArgs where
  url : String
  categories : Option (List String) := none
  format : Option String := none
  outputPath : Option String := none
  onlyMetrics : Option Bool := none
deriving DecidableEq, Repr

/-- The options object built by the `lighthouse_analyze` handler: the
argument defaults are applied, and `onlyCategories` is never set. -/
def analyzeOptions (args : AnalyzeArgs) : LighthouseOptions :=
  { url := args.url,
    categories := some (args.categories.getD
      ["performance", "accessibility", "best-practices", "seo"]),
    format := some (strOrDefault args.format "json"),
    outputPath := some (strOrDefault args.outputPath "./reports"),
    onlyCategories := none }

/-- The `lighthouse_analyze` handler: builds `LighthouseOptions` from the
arguments and defaults (never setting `onlyCategories`), runs the audit, and
either returns the raw results, or — when `onlyMetrics` is truthy — the
`{success: true, metrics}` envelope; a thrown exception becomes
`{success: false, error}`. Returns the response together with the audit
trace. -/
def lighthouseAnalyze (args : AnalyzeArgs) (ext : ExtBehavior) : JVal × AuditTrace :=
  let tr := runLighthouse (analyzeOptions args) ext
  match tr.outcome with
  | Except.ok results =>
    if args.onlyMetrics.getD false then
      (JVal.obj [("success", JVal.bool true), ("metrics", extractKeyMetrics results)], tr)
    else
      (results, tr)
  | Except.error msg =>
    (JVal.obj [("success", JVal.bool false), ("error", JVal.str msg)], tr)

/-- An always-succeeding tool handler, as a concrete witness input. -/
def okHandler : ToolHandler := fun _ => Except.ok (JVal.str "Navigated to https://example.com")

/-- An always-throwing tool handler, as a concrete witness input. -/
def throwHandler : ToolHandler := fun _ => Except.error "net::ERR_NAME_NOT_RESOLVED"

/-- A concrete audit result holding a performance category scored 0.873 and
one key audit (`interactive`), as a witness input. -/
def exCategoryResults : JVal :=
  JVal.obj
    [("categories", JVal.obj
        [("performance", JVal.obj [("score", JVal.num (873/1000))])]),
     ("audits", JVal.obj
        [("interactive", JVal.obj
            [("score", JVal.num (99/100)), ("numericValue", JVal.num 3800),
             ("displayValue", JVal.str "3.8 s")])])]

/-- A concrete external behaviour where chrome-launcher, the engine and the
filesystem all succeed. -/
def extOk : ExtBehavior :=
  { launch := Except.ok 9222,
    engine := fun _ => Except.ok
      { lhr := JVal.obj [("audits", JVal.obj [])], report := JVal.str "<html></html>" },
    write := fun _ _ => Except.ok (),
    now := "2026-10-12T08:30:00.000Z" }

/-- The options object built by the `lighthouse_get_metrics` handler:
`onlyCategories: true` with the given categories (default
`['performance']`). -/
def getMetricsOptions (url : String) (categories : Option (List String)) :
    LighthouseOptions :=
  { url := url,
    categories := some (categories.getD ["performance"]),
    onlyCategories := some true }

/-- The `lighthouse_get_metrics` handler: requests a category-restricted run,
then always extracts the key metrics. -/
def lighthouseGetMetrics (url : String) (categories : Option (List String))
    (ext : ExtBehavior) : JVal × AuditTrace :=
  let tr := runLighthouse (getMetricsOptions url categories) ext
  match tr.outcome with
  | Except.ok results =>
    (JVal.obj [("success", JVal.bool true),
               ("metrics", extractKeyMetrics results)], tr)
  | Except.error msg =>
    (JVal.obj [("success", JVal.bool false), ("error", JVal.str msg)], tr)

/-! ## Theorems -/

/-- Counterexample for C1: the request name `toString` is not a key of the
tool registry, yet `"toString" in tools` is true through `Object.prototype`,
so the program skips the error branch, invokes the inherited
`Object.prototype.toString`, and answers `{result: "[object Object]"}` — not
the `{error: "Tool toString not found"}` envelope the claim requires. -/
theorem dispatch_prototype_name_counterexample :
    (([("puppeteer_navigate", okHandler)] :
        List (String × ToolHandler)).lookup "toString" = none) ∧
    dispatch [("puppeteer_navigate", okHandler)] [("toString", objectProtoToString)]
        "toString" JVal.null
      = JVal.obj [("result", JVal.str "[object Object]")] ∧
    JVal.obj [("result", JVal.str "[object Object]")]
      ≠ JVal.obj [("error", JVal.str "Tool toString not found")] := by
  refine ⟨rfl, rfl, ?_⟩
  simp

/-- C1 (amended): for every tool-call request whose name is not a key of the
tool registry, the dispatch handler returns the structured error envelope
`{error: "Tool <name> not found"}` exactly when the name is also not
inherited from `Object.prototype` (so that `name in tools` is false); a
non-key name inherited from the prototype skips the error branch and the
inherited member is invoked and wrapped as an ordinary result or error
envelope. `dispatch` is a total function, so no path throws or crashes the
process. -/
theorem dispatch_not_in_returns_error_envelope
    (tools proto : List (String × ToolHandler)) (name : String) (args : JVal)
    (hown : tools.lookup name = none) :
    (proto.lookup name = none →
      dispatch tools proto name args
        = JVal.obj [("error", JVal.str ("Tool " ++ name ++ " not found"))]) ∧
    (∀ handler, proto.lookup name = some handler →
      (∀ v, handler args = Except.ok v →
        dispatch tools proto name args = JVal.obj [("result", v)]) ∧
      (∀ msg, handler args = Except.error msg →
        dispatch tools proto name args = JVal.obj [("error", JVal.str msg)])) := by
  refine ⟨fun hp => ?_, fun handler hp => ⟨fun v hv => ?_, fun msg hm => ?_⟩⟩
  · simp [dispatch, hown, hp]
  · simp [dispatch, hown, hp, hv]
  · simp [dispatch, hown, hp, hm]

/-- Witness for C1 (amended): the name `lighthouse_audit` is neither a
registry key nor an `Object.prototype` member, and the error envelope is
returned. -/
theorem dispatch_not_in_returns_error_envelope_witness :
    (([("puppeteer_navigate", okHandler)] :
        List (String × ToolHandler)).lookup "lighthouse_audit" = none) ∧
    (([("toString", objectProtoToString)] :
        List (String × ToolHandler)).lookup "lighthouse_audit" = none) ∧
    dispatch [("puppeteer_navigate", okHandler)] [("toString", objectProtoToString)]
        "lighthouse_audit" JVal.null
      = JVal.obj [("error", JVal.str "Tool lighthouse_audit not found")] :=
  ⟨rfl, rfl,
    (dispatch_not_in_returns_error_envelope
      [("puppeteer_navigate", okHandler)] [("toString", objectProtoToString)]
      "lighthouse_audit" JVal.null rfl).1 rfl⟩

/-- C2: for every registered tool name and argument mapping (and any
prototype behind the registry object), a handler that returns `v` makes the
dispatcher answer `{result: v}`, and a handler that throws with message `msg`
makes it answer `{error: msg}`; `dispatch` being a total function, no handler
exception propagates out of it. -/
theorem dispatch_known_tool_wraps_result_or_error
    (tools proto : List (String × ToolHandler)) (name : String) (args : JVal)
    (handler : ToolHandler)
    (h : tools.lookup name = some handler) :
    (∀ v, handler args = Except.ok v →
        dispatch tools proto name args = JVal.obj [("result", v)]) ∧
    (∀ msg, handler args = Except.error msg →
        dispatch tools proto name args = JVal.obj [("error", JVal.str msg)]) := by
  refine ⟨fun v hv => ?_, fun msg hm => ?_⟩
  · simp [dispatch, h, hv]
  · simp [dispatch, h, hm]

/-- Witness for C2: a registry holding a succeeding and a throwing handler
over the `Object.prototype` model; the call to the succeeding one is wrapped
as a result envelope. -/
theorem dispatch_known_tool_witness :
    ([("puppeteer_navigate", okHandler), ("puppeteer_click", throwHandler)].lookup
        "puppeteer_navigate" = some okHandler) ∧
    okHandler JVal.null = Except.ok (JVal.str "Navigated to https://example.com") ∧
    dispatch [("puppeteer_navigate", okHandler), ("puppeteer_click", throwHandler)]
        [("toString", objectProtoToString)] "puppeteer_navigate" JVal.null
      = JVal.obj [("result", JVal.str "Navigated to https://example.com")] :=
  ⟨rfl, rfl,
    (dispatch_known_tool_wraps_result_or_error
      [("puppeteer_navigate", okHandler), ("puppeteer_click", throwHandler)]
      [("toString", objectProtoToString)]
      "puppeteer_navigate" JVal.null okHandler rfl).1 _ rfl⟩

/-- C3: every `runLighthouse` invocation whose chrome-launcher call produced
an instance ends with `chrome.kill()` (the `finally` block): the trace
records the kill on the success path and on every path where the engine call
or the report write throws, since `ext` ranges over all such behaviours. -/
theorem runLighthouse_always_kills_chrome
    (opts : LighthouseOptions) (ext : ExtBehavior) (port : ℕ)
    (h : ext.launch = Except.ok port) :
    (runLighthouse opts ext).killed = true := by
  simp [runLighthouse, h]

/-- Witness for C3: the all-succeeding behaviour `extOk` launches on port
9222 and the dedicated Chrome is killed. -/
theorem runLighthouse_kills_chrome_witness :
    extOk.launch = Except.ok 9222 ∧
    (runLighthouse { url := "https://example.com" } extOk).killed = true :=
  ⟨rfl, runLighthouse_always_kills_chrome { url := "https://example.com" } extOk 9222 rfl⟩

/-- C6: on a null or undefined input, and on any input whose `audits` field
is absent, `extractKeyMetrics` returns exactly
`{error: 'Invalid Lighthouse results'}`; the function is total, so it never
throws. -/
theorem extractKeyMetrics_invalid_input
    (v : JVal)
    (h : v = JVal.null ∨ v = JVal.undef ∨ v.get "audits" = JVal.undef) :
    extractKeyMetrics v
      = JVal.obj [("error", JVal.str "Invalid Lighthouse results")] := by
  rcases h with h | h | h
  · subst h; rfl
  · subst h; rfl
  · simp [extractKeyMetrics, h, JVal.truthy]

/-- Witness for C6: an object with no `audits` field. -/
theorem extractKeyMetrics_invalid_input_witness :
    (JVal.obj [("categories", JVal.obj [])]).get "audits" = JVal.undef ∧
    extractKeyMetrics (JVal.obj [("categories", JVal.obj [])])
      = JVal.obj [("error", JVal.str "Invalid Lighthouse results")] :=
  ⟨rfl, extractKeyMetrics_invalid_input (JVal.obj [("categories", JVal.obj [])])
    (Or.inr (Or.inr rfl))⟩

/-! ### Session-manager lemmas for C4 -/

/-- Association lookup distributes over append: a hit in the left list wins,
otherwise the right list is consulted. -/
theorem lookup_append {α β : Type} [BEq α] (k : α) (l₁ l₂ : List (α × β)) :
    (l₁ ++ l₂).lookup k = ((l₁.lookup k).or (l₂.lookup k)) := by
  induction l₁ with
  | nil => simp [List.lookup]
  | cons p l ih =>
    obtain ⟨a, b⟩ := p
    by_cases h : k == a
    · simp [List.lookup, h]
    · simp only [List.cons_append, List.lookup, h]
      exact ih

/-- The page key computed from the never-advanced id counter is `page_0`. -/
theorem page_key_zero : "page_" ++ toString (0 : ℕ) = "page_0" := rfl

/-- A second `getCurrentPage` with no intervening `openBrowser` returns the
same handle and leaves the state unchanged. -/
theorem getCurrentPage_stable (s : SessionState) :
    getCurrentPage ((getCurrentPage s).2) = getCurrentPage s := by
  cases hb : s.browser with
  | none =>
    simp [getCurrentPage, hb, openBrowser, List.lookup]
  | some b =>
    cases hl : s.pages.lookup ("page_" ++ toString s.pageId) with
    | some p => simp [getCurrentPage, hb, hl]
    | none => simp [getCurrentPage, hb, hl, lookup_append, List.lookup]

/-- Every call in a run of successive `getCurrentPage` calls yields the same
handle, and the state settles after the first call. -/
theorem callN_eq (n : ℕ) (s : SessionState) : callN n s = getCurrentPage s := by
  induction n generalizing s with
  | zero => rfl
  | succ n ih =>
    show callN n (getCurrentPage s).2 = _
    rw [ih, getCurrentPage_stable]

/-- The module-load state satisfies the session invariant. -/
theorem sessionInv_init : SessionInv initState := by
  simp [SessionInv, initState]

/-- Function `openBrowser` re-establishes the session invariant. -/
theorem sessionInv_openBrowser (s : SessionState) : SessionInv (openBrowser s) := by
  simp [SessionInv, openBrowser]

/-- Function `getCurrentPage` preserves the session invariant, and its
resulting page table is exactly the one entry `page_0` holding the returned
handle. -/
theorem getCurrentPage_pages (s : SessionState) (h : SessionInv s) :
    SessionInv (getCurrentPage s).2 ∧
    (getCurrentPage s).2.pages = [("page_0", (getCurrentPage s).1)] := by
  obtain ⟨hid, hpages⟩ := h
  cases hb : s.browser with
  | none =>
    simp [getCurrentPage, hb, openBrowser, List.lookup, SessionInv, page_key_zero]
  | some b =>
    rcases hpages with hp | ⟨p, hp⟩
    · simp [getCurrentPage, hb, hid, hp, List.lookup, SessionInv, page_key_zero]
    · simp [getCurrentPage, hb, hid, hp, List.lookup, SessionInv, page_key_zero]

/-- Every reachable session state satisfies the invariant. -/
theorem reachable_sessionInv (s : SessionState) (h : Reachable s) : SessionInv s := by
  obtain ⟨ops, rfl⟩ := h
  have key : ∀ (ops : List SessionOp) (t : SessionState),
      SessionInv t → SessionInv (runOps ops t) := by
    intro ops
    induction ops with
    | nil => intro t ht; exact ht
    | cons op ops ih =>
      intro t ht
      cases op with
      | openBrowserOp => exact ih _ (sessionInv_openBrowser t)
      | toolCallOp => exact ih _ (getCurrentPage_pages t ht).1
  exact key ops initState sessionInv_init

/-- C4: from any reachable session state, the page table holds at most one
entry; a sequence of browser-automation tool calls with no intervening
`openBrowser` returns the same page handle on every call, stored under the
key `page_0` as the table's only entry; and when no browser exists yet,
`getCurrentPage` lazily creates the browser and the page on first use. -/
theorem getCurrentPage_single_stable_page
    (s : SessionState) (h : Reachable s) (n : ℕ) :
    s.pages.length ≤ 1 ∧
    (callN n s).1 = (getCurrentPage s).1 ∧
    (callN n s).2.pages = [("page_0", (getCurrentPage s).1)] ∧
    (s.browser = none →
      (getCurrentPage s).2.browser = some s.nextBrowser ∧
      (getCurrentPage s).1 = s.nextPage) := by
  have hinv := reachable_sessionInv s h
  refine ⟨?_, ?_, ?_, ?_⟩
  · rcases hinv.2 with hp | ⟨p, hp⟩ <;> simp [hp]
  · rw [callN_eq]
  · rw [callN_eq]
    exact (getCurrentPage_pages s hinv).2
  · intro hb
    constructor
    · simp [getCurrentPage, hb, openBrowser, List.lookup]
    · simp [getCurrentPage, hb, openBrowser, List.lookup]

/-- Witness for C4: the module-load state is reachable, and three successive
tool calls from it all return handle `0`, stored as the single `page_0`
entry; the browser is created lazily on the first call. -/
theorem getCurrentPage_single_stable_page_witness :
    Reachable initState ∧
    (initState.pages.length ≤ 1 ∧
     (callN 2 initState).1 = (getCurrentPage initState).1 ∧
     (callN 2 initState).2.pages = [("page_0", (getCurrentPage initState).1)] ∧
     (initState.browser = none →
       (getCurrentPage initState).2.browser = some initState.nextBrowser ∧
       (getCurrentPage initState).1 = initState.nextPage)) :=
  ⟨⟨[], rfl⟩, getCurrentPage_single_stable_page initState ⟨[], rfl⟩ 2⟩

/-! ### Metrics-extraction lemmas for C7 and C8 -/

/-- Reading a field of an object value is association lookup. -/
theorem get_obj (l : List (String × JVal)) (k : String) :
    (JVal.obj l).get k = match l.lookup k with
      | some v => v
      | none => JVal.undef := rfl

/-- On a truthy input with a truthy `audits` section, `extractKeyMetrics`
takes the metrics-building branch. -/
theorem extractKeyMetrics_valid (results : JVal)
    (hR : results.truthy = true) (hA : (results.get "audits").truthy = true) :
    extractKeyMetrics results
      = JVal.obj (categoryEntries results ++
          keyAudits.foldr (fun k acc => auditEntry (results.get "audits") k ++ acc) []) := by
  simp [extractKeyMetrics, hR, hA]

/-- A category block never resolves a different key. -/
theorem lookup_catEntry_ne (results : JVal) (k mk k' : String) (h : k' ≠ mk) :
    (catEntry results k mk).lookup k' = none := by
  unfold catEntry
  split
  · simp [List.lookup, beq_eq_false_iff_ne.mpr h]
  · rfl

/-- A category block resolves its own key exactly when the category is
present (truthy), to the rounded score. -/
theorem lookup_catEntry_self (results : JVal) (k mk : String) :
    (catEntry results k mk).lookup mk
      = if ((results.get "categories").get k).truthy then
          some (roundTimes100 (((results.get "categories").get k).get "score"))
        else none := by
  unfold catEntry
  split
  · next h => simp [List.lookup, h]
  · next h => simp [h]

/-- A key-audit block never resolves a different key. -/
theorem lookup_auditEntry_ne (audits : JVal) (k k' : String) (h : k' ≠ k) :
    (auditEntry audits k).lookup k' = none := by
  unfold auditEntry
  split
  · simp [List.lookup, beq_eq_false_iff_ne.mpr h]
  · rfl

/-- A key-audit block resolves its own key exactly when the audit is present
(truthy), to the `{score, value, displayValue}` entry. -/
theorem lookup_auditEntry_self (audits : JVal) (k : String) :
    (auditEntry audits k).lookup k
      = if (audits.get k).truthy then
          some (JVal.obj [("score", (audits.get k).get "score"),
                          ("value", (audits.get k).get "numericValue"),
                          ("displayValue", (audits.get k).get "displayValue")])
        else none := by
  unfold auditEntry
  split
  · next h => simp [List.lookup, h]
  · next h => simp [h]

/-- The key-audit loop never resolves a key outside the given key list. -/
theorem lookup_auditFold_ne (audits : JVal) (ks : List String) (k' : String)
    (h : ∀ k ∈ ks, k' ≠ k) :
    (ks.foldr (fun k acc => auditEntry audits k ++ acc) []).lookup k' = none := by
  induction ks with
  | nil => rfl
  | cons k ks ih =>
    simp only [List.foldr_cons, lookup_append,
      lookup_auditEntry_ne audits k k' (h k (by simp)), Option.none_or]
    exact ih fun a ha => h a (by simp [ha])

/-- The rounded value of a fractional score between 0 and 1 lies between 0
and 100. -/
theorem mathRound_score_range (q : ℚ) (h0 : 0 ≤ q) (h1 : q ≤ 1) :
    0 ≤ mathRound (q * 100) ∧ mathRound (q * 100) ≤ 100 := by
  unfold mathRound
  constructor
  · positivity
  · have : q * 100 + 1/2 ≤ 100 + 1/2 := by nlinarith
    calc (⌊q * 100 + 1/2⌋ : ℤ) ≤ ⌊(100 + 1/2 : ℚ)⌋ := Int.floor_le_floor this
      _ = 100 := by norm_num

/-- C7: for every input with an `audits` field, each of the four category
scores (performance, accessibility, best-practices, seo) that is present is
derived by rounding the 0-1 fractional score via `Math.round(score * 100)`,
which for a score between 0 and 1 lies between 0 and 100; in particular a
fractional score of 0.873 yields 87 and 1.0 yields 100. -/
theorem extractKeyMetrics_category_rounding
    (ck mk : String)
    (hmem : (ck, mk) ∈ [("performance", "performanceScore"),
      ("accessibility", "accessibilityScore"),
      ("best-practices", "bestPracticesScore"),
      ("seo", "seoScore")])
    (results : JVal) (q : ℚ)
    (hR : results.truthy = true)
    (hA : (results.get "audits").truthy = true)
    (hC : ((results.get "categories").get ck).truthy = true)
    (hS : ((results.get "categories").get ck).get "score" = JVal.num q) :
    (extractKeyMetrics results).get mk = JVal.num ((mathRound (q * 100) : ℤ) : ℚ) ∧
    (0 ≤ q → q ≤ 1 → 0 ≤ mathRound (q * 100) ∧ mathRound (q * 100) ≤ 100) ∧
    mathRound ((873 : ℚ) / 1000 * 100) = 87 ∧
    mathRound ((1 : ℚ) * 100) = 100 := by
  refine ⟨?_, fun h0 h1 => mathRound_score_range q h0 h1,
    by norm_num [mathRound], by norm_num [mathRound]⟩
  rw [extractKeyMetrics_valid results hR hA, get_obj]
  simp only [List.mem_cons, List.mem_singleton, Prod.mk.injEq,
    List.not_mem_nil, or_false] at hmem
  rcases hmem with ⟨rfl, rfl⟩ | ⟨rfl, rfl⟩ | ⟨rfl, rfl⟩ | ⟨rfl, rfl⟩ <;>
    simp [categoryEntries, lookup_append, lookup_catEntry_self,
      lookup_catEntry_ne, lookup_auditFold_ne, keyAudits, hC, hS, roundTimes100]

/-- Witness for C7: on `exCategoryResults`, whose performance score is 0.873,
the extracted `performanceScore` is `Math.round(0.873 * 100)`, which is 87. -/
theorem extractKeyMetrics_category_rounding_witness :
    ("performance", "performanceScore") ∈ [("performance", "performanceScore"),
      ("accessibility", "accessibilityScore"),
      ("best-practices", "bestPracticesScore"),
      ("seo", "seoScore")] ∧
    exCategoryResults.truthy = true ∧
    (exCategoryResults.get "audits").truthy = true ∧
    ((exCategoryResults.get "categories").get "performance").truthy = true ∧
    ((exCategoryResults.get "categories").get "performance").get "score"
      = JVal.num (873/1000) ∧
    ((extractKeyMetrics exCategoryResults).get "performanceScore"
        = JVal.num ((mathRound ((873 : ℚ)/1000 * 100) : ℤ) : ℚ) ∧
      (0 ≤ (873 : ℚ)/1000 → (873 : ℚ)/1000 ≤ 1 →
        0 ≤ mathRound ((873 : ℚ)/1000 * 100) ∧ mathRound ((873 : ℚ)/1000 * 100) ≤ 100) ∧
      mathRound ((873 : ℚ) / 1000 * 100) = 87 ∧
      mathRound ((1 : ℚ) * 100) = 100) :=
  ⟨List.mem_cons_self _ _, rfl, rfl, rfl, rfl,
    extractKeyMetrics_category_rounding "performance" "performanceScore"
      (List.mem_cons_self _ _) exCategoryResults ((873 : ℚ)/1000) rfl rfl rfl rfl⟩

/-- C8: for every input with an `audits` field, `extractKeyMetrics` includes,
for each of exactly the six audit keys that is present in the input's audits
(present meaning a truthy audit entry — in practice an audit object), the
entry `{score, value: numericValue, displayValue}`, and includes no entry
(the field reads back as undefined) for an absent key. -/
theorem extractKeyMetrics_key_audit_entries
    (results : JVal) (k : String)
    (hk : k ∈ keyAudits)
    (hR : results.truthy = true)
    (hA : (results.get "audits").truthy = true) :
    (((results.get "audits").get k).truthy = true →
      (extractKeyMetrics results).get k
        = JVal.obj [("score", ((results.get "audits").get k).get "score"),
                    ("value", ((results.get "audits").get k).get "numericValue"),
                    ("displayValue", ((results.get "audits").get k).get "displayValue")]) ∧
    ((results.get "audits").get k = JVal.undef →
      (extractKeyMetrics results).get k = JVal.undef) := by
  constructor
  · intro ht
    rw [extractKeyMetrics_valid results hR hA, get_obj]
    simp only [keyAudits, List.mem_cons, List.not_mem_nil, or_false] at hk
    rcases hk with rfl | rfl | rfl | rfl | rfl | rfl <;>
      simp [categoryEntries, keyAudits, lookup_append, lookup_catEntry_ne,
        lookup_auditEntry_self, lookup_auditEntry_ne, ht]
  · intro habs
    rw [extractKeyMetrics_valid results hR hA, get_obj]
    simp only [keyAudits, List.mem_cons, List.not_mem_nil, or_false] at hk
    rcases hk with rfl | rfl | rfl | rfl | rfl | rfl <;>
      simp [categoryEntries, keyAudits, lookup_append, lookup_catEntry_ne,
        lookup_auditEntry_self, lookup_auditEntry_ne, habs, JVal.truthy]

/-- Witness for C8: on `exCategoryResults` the present `interactive` audit is
extracted as its `{score, value, displayValue}` entry, and an absent key
yields no entry. -/
theorem extractKeyMetrics_key_audit_entries_witness :
    "interactive" ∈ keyAudits ∧
    exCategoryResults.truthy = true ∧
    (exCategoryResults.get "audits").truthy = true ∧
    ((((exCategoryResults.get "audits").get "interactive").truthy = true →
      (extractKeyMetrics exCategoryResults).get "interactive"
        = JVal.obj [("score", ((exCategoryResults.get "audits").get "interactive").get "score"),
            ("value", ((exCategoryResults.get "audits").get "interactive").get "numericValue"),
            ("displayValue",
              ((exCategoryResults.get "audits").get "interactive").get "displayValue")]) ∧
     ((exCategoryResults.get "audits").get "interactive" = JVal.undef →
      (extractKeyMetrics exCategoryResults).get "interactive" = JVal.undef)) :=
  ⟨by simp [keyAudits], rfl, rfl,
    extractKeyMetrics_key_audit_entries exCategoryResults "interactive"
      (by simp [keyAudits]) rfl rfl⟩

/-! ### Audit-runner lemmas for C5, C9 and C10 -/

/-- The configuration handed to the engine by `runLighthouse`, as a function
of the options: the resolved port, the defaulted output format, and the
category list only when the `onlyCategories` flag is set. -/
theorem runLighthouse_config (opts : LighthouseOptions) (ext : ExtBehavior) (port : ℕ)
    (h : ext.launch = Except.ok port) :
    (runLighthouse opts ext).config
      = some (mkLHConfig port (opts.format.getD "json")
          (if opts.onlyCategories.getD false then
            some (opts.categories.getD
              ["performance", "accessibility", "best-practices", "seo"])
           else none)) := by
  simp [runLighthouse, h]

/-- The trace of a `lighthouse_analyze` call is the trace of its inner
`runLighthouse` call. -/
theorem lighthouseAnalyze_trace (args : AnalyzeArgs) (ext : ExtBehavior) :
    (lighthouseAnalyze args ext).2 = runLighthouse (analyzeOptions args) ext := by
  cases h : (runLighthouse (analyzeOptions args) ext).outcome <;>
    simp [lighthouseAnalyze, h, apply_ite Prod.snd]

/-- The trace of a `lighthouse_get_metrics` call is the trace of its inner
`runLighthouse` call. -/
theorem lighthouseGetMetrics_trace (url : String) (categories : Option (List String))
    (ext : ExtBehavior) :
    (lighthouseGetMetrics url categories ext).2
      = runLighthouse (getMetricsOptions url categories) ext := by
  cases h : (runLighthouse (getMetricsOptions url categories) ext).outcome <;>
    simp [lighthouseGetMetrics, h]

/-- A defaulted string argument is never empty when the default is not. -/
theorem strOrDefault_ne_empty (v : Option String) (d : String) (hd : d ≠ "") :
    strOrDefault v d ≠ "" := by
  cases v with
  | none => exact hd
  | some s =>
    by_cases hs : s = ""
    · simp [strOrDefault, hs]
      exact hd
    · simp [strOrDefault, hs]

/-- Joining a file name under a directory never yields the directory path
itself. -/
theorem pathJoin_ne (dir name : String) : pathJoin dir name ≠ dir := by
  unfold pathJoin
  intro h
  have hlen := congrArg String.length h
  simp only [String.length_append] at hlen
  have hone : ("/" : String).length = 1 := rfl
  omega

/-- Counterexample for C5: an analyze call that requests only the `seo`
category still hands the engine a configuration whose `onlyCategories` is
undefined — the requested filter is not the one passed, so the categories do
not restrict which categories the engine runs. -/
theorem analyze_categories_not_passed_counterexample :
    (lighthouseAnalyze
        { url := "https://example.com", categories := some ["seo"] } extOk).2.config
      = some (mkLHConfig 9222 "json" none) ∧
    some (mkLHConfig 9222 "json" none) ≠ some (mkLHConfig 9222 "json" (some ["seo"])) := by
  constructor
  · rfl
  · simp [mkLHConfig]

/-- C5 (amended): for every analyze call, the configuration handed to the
audit engine is built from the resolved Chrome port and the requested output
format, but the caller-supplied categories are not passed: the analyze
handler never sets the `onlyCategories` flag, so the configuration's
`onlyCategories` is undefined and the engine is not restricted to the
requested categories; only the `lighthouse_get_metrics` handler (which sets
`onlyCategories: true`) passes the category filter. -/
theorem analyze_config_port_format_no_categories
    (args : AnalyzeArgs) (ext : ExtBehavior) (port : ℕ)
    (h : ext.launch = Except.ok port) :
    (lighthouseAnalyze args ext).2.config
      = some (mkLHConfig port (strOrDefault args.format "json") none) ∧
    (lighthouseGetMetrics args.url args.categories ext).2.config
      = some (mkLHConfig port "json"
          (some (args.categories.getD ["performance"]))) := by
  constructor
  · rw [lighthouseAnalyze_trace, runLighthouse_config _ _ _ h]
    simp [analyzeOptions]
  · rw [lighthouseGetMetrics_trace, runLighthouse_config _ _ _ h]
    simp [getMetricsOptions]

/-- Witness for C5 (amended): an analyze call requesting `['seo']` yields a
configuration without a category restriction, while the same request through
`lighthouse_get_metrics` passes the restriction. -/
theorem analyze_config_port_format_no_categories_witness :
    extOk.launch = Except.ok 9222 ∧
    ((lighthouseAnalyze
        { url := "https://example.com", categories := some ["seo"] } extOk).2.config
      = some (mkLHConfig 9222 "json" none) ∧
     (lighthouseGetMetrics "https://example.com" (some ["seo"]) extOk).2.config
      = some (mkLHConfig 9222 "json" (some ["seo"]))) :=
  ⟨rfl, analyze_config_port_format_no_categories
    { url := "https://example.com", categories := some ["seo"] } extOk 9222 rfl⟩

/-- C9: for every analyze call with truthy `onlyMetrics` and a non-json
format, `runLighthouse` returns the summary envelope
`{success, format, filePath, report}`, which has no `audits` field, so the
analyze handler reports the extraction failure under `success: true`:
`{success: true, metrics: {error: 'Invalid Lighthouse results'}}`. -/
theorem analyze_only_metrics_non_json_invalid
    (args : AnalyzeArgs) (ext : ExtBehavior) (port : ℕ) (r : RunResult)
    (w : Option (String × JVal))
    (hm : args.onlyMetrics = some true)
    (hf : strOrDefault args.format "json" ≠ "json")
    (hl : ext.launch = Except.ok port)
    (he : ext.engine (mkLHConfig port (strOrDefault args.format "json") none)
        = Except.ok r)
    (hw : maybeWriteReport ext (some (strOrDefault args.outputPath "./reports"))
        (strOrDefault args.format "json") r.report = Except.ok w) :
    (runLighthouse (analyzeOptions args) ext).outcome
      = Except.ok (summaryEnvelope (strOrDefault args.format "json")
          (some (strOrDefault args.outputPath "./reports")) r.report) ∧
    (summaryEnvelope (strOrDefault args.format "json")
        (some (strOrDefault args.outputPath "./reports")) r.report).get "audits"
      = JVal.undef ∧
    (lighthouseAnalyze args ext).1
      = JVal.obj [("success", JVal.bool true),
          ("metrics", JVal.obj [("error", JVal.str "Invalid Lighthouse results")])] := by
  have h1 : (runLighthouse (analyzeOptions args) ext).outcome
      = Except.ok (summaryEnvelope (strOrDefault args.format "json")
          (some (strOrDefault args.outputPath "./reports")) r.report) := by
    simp [runLighthouse, analyzeOptions, hl, he, hw, hf, Except.map]
  have h2 : (summaryEnvelope (strOrDefault args.format "json")
      (some (strOrDefault args.outputPath "./reports")) r.report).get "audits"
      = JVal.undef := by
    cases hc : optStrTruthy (some (strOrDefault args.outputPath "./reports")) <;>
      simp [summaryEnvelope, get_obj, lookup_append, List.lookup, hc]
  have h3 : extractKeyMetrics (summaryEnvelope (strOrDefault args.format "json")
      (some (strOrDefault args.outputPath "./reports")) r.report)
      = JVal.obj [("error", JVal.str "Invalid Lighthouse results")] := by
    rw [extractKeyMetrics, h2]
    cases hc : optStrTruthy (some (strOrDefault args.outputPath "./reports")) <;>
      simp [summaryEnvelope, JVal.truthy, hc]
  refine ⟨h1, h2, ?_⟩
  simp only [lighthouseAnalyze, h1, hm]
  simp [h3]

/-- C10: for every `runLighthouse` call with a non-json format and a truthy
output path whose audit produces a report body, the `filePath` field of the
returned envelope is the output path as given, while the report file
actually written lands at the output path joined with
`lighthouse-<ISO8601 timestamp, colons replaced by dashes>.<format>` —
a strictly different path. -/
theorem runLighthouse_filePath_is_directory_not_file
    (opts : LighthouseOptions) (ext : ExtBehavior) (port : ℕ) (r : RunResult)
    (op fmt : String)
    (hop : opts.outputPath = some op) (hopne : op ≠ "")
    (hfmt : opts.format = some fmt) (hjson : fmt ≠ "json")
    (hrep : r.report.truthy = true)
    (hl : ext.launch = Except.ok port)
    (he : ext.engine (mkLHConfig port fmt
        (if opts.onlyCategories.getD false then
           some (opts.categories.getD
             ["performance", "accessibility", "best-practices", "seo"])
         else none)) = Except.ok r)
    (hw : ext.write (pathJoin op (reportFileName ext.now fmt)) r.report
        = Except.ok ()) :
    (runLighthouse opts ext).written
      = some (pathJoin op (reportFileName ext.now fmt), r.report) ∧
    (runLighthouse opts ext).outcome
      = Except.ok (summaryEnvelope fmt (some op) r.report) ∧
    (summaryEnvelope fmt (some op) r.report).get "filePath" = JVal.str op ∧
    pathJoin op (reportFileName ext.now fmt) ≠ op := by
  have hbody : maybeWriteReport ext (some op) fmt r.report
      = Except.ok (some (pathJoin op (reportFileName ext.now fmt), r.report)) := by
    simp [maybeWriteReport, hopne, hrep, hw]
  refine ⟨?_, ?_, ?_, pathJoin_ne op (reportFileName ext.now fmt)⟩
  · simp [runLighthouse, hl, hfmt, hop, he, hbody, hjson, Except.map]
  · simp [runLighthouse, hl, hfmt, hop, he, hbody, hjson, Except.map]
  · simp [summaryEnvelope, get_obj, lookup_append, List.lookup, optStrTruthy,
      bne_iff_ne, hopne]

/-- Witness for C9: an analyze call with `format: 'html'` and
`onlyMetrics: true` against the all-succeeding behaviour reports the
extraction failure under `success: true`. -/
theorem analyze_only_metrics_non_json_invalid_witness :
    (({ url := "https://example.com", format := some "html",
          onlyMetrics := some true } : AnalyzeArgs).onlyMetrics = some true) ∧
    strOrDefault (some "html") "json" ≠ "json" ∧
    extOk.launch = Except.ok 9222 ∧
    extOk.engine (mkLHConfig 9222 (strOrDefault (some "html") "json") none)
      = Except.ok { lhr := JVal.obj [("audits", JVal.obj [])],
                    report := JVal.str "<html></html>" } ∧
    maybeWriteReport extOk (some (strOrDefault none "./reports"))
        (strOrDefault (some "html") "json") (JVal.str "<html></html>")
      = Except.ok (some ("./reports/lighthouse-2026-10-12T08-30-00.000Z.html",
          JVal.str "<html></html>")) ∧
    (lighthouseAnalyze
        { url := "https://example.com", format := some "html", onlyMetrics := some true }
        extOk).1
      = JVal.obj [("success", JVal.bool true),
          ("metrics", JVal.obj [("error", JVal.str "Invalid Lighthouse results")])] :=
  ⟨rfl, by decide, rfl, rfl, rfl,
    (analyze_only_metrics_non_json_invalid
      { url := "https://example.com", format := some "html", onlyMetrics := some true }
      extOk 9222
      { lhr := JVal.obj [("audits", JVal.obj [])], report := JVal.str "<html></html>" }
      (some ("./reports/lighthouse-2026-10-12T08-30-00.000Z.html",
        JVal.str "<html></html>"))
      rfl (by decide) rfl rfl rfl).2.2⟩

/-- Witness for C10: a pdf-format audit with output path `./reports` returns
`filePath: './reports'` while the report file is written at
`./reports/lighthouse-2026-10-12T08-30-00.000Z.pdf`. -/
theorem runLighthouse_filePath_witness :
    (({ url := "https://example.com", format := some "pdf",
          outputPath := some "./reports" } : LighthouseOptions).outputPath
      = some "./reports") ∧
    ("./reports" : String) ≠ "" ∧
    (({ url := "https://example.com", format := some "pdf",
          outputPath := some "./reports" } : LighthouseOptions).format = some "pdf") ∧
    ("pdf" : String) ≠ "json" ∧
    (JVal.str "<html></html>").truthy = true ∧
    extOk.launch = Except.ok 9222 ∧
    extOk.engine (mkLHConfig 9222 "pdf" none)
      = Except.ok { lhr := JVal.obj [("audits", JVal.obj [])],
                    report := JVal.str "<html></html>" } ∧
    extOk.write (pathJoin "./reports" (reportFileName extOk.now "pdf"))
        (JVal.str "<html></html>") = Except.ok () ∧
    ((runLighthouse
          { url := "https://example.com", format := some "pdf", outputPath := some "./reports" }
          extOk).written
        = some (pathJoin "./reports" (reportFileName extOk.now "pdf"),
            JVal.str "<html></html>") ∧
     (runLighthouse
          { url := "https://example.com", format := some "pdf", outputPath := some "./reports" }
          extOk).outcome
        = Except.ok (summaryEnvelope "pdf" (some "./reports")
            (JVal.str "<html></html>")) ∧
     (summaryEnvelope "pdf" (some "./reports") (JVal.str "<html></html>")).get
          "filePath" = JVal.str "./reports" ∧
     pathJoin "./reports" (reportFileName extOk.now "pdf") ≠ "./reports") :=
  ⟨rfl, by decide, rfl, by decide, rfl, rfl, rfl, rfl,
    runLighthouse_filePath_is_directory_not_file
      { url := "https://example.com", format := some "pdf",
        outputPath := some "./reports" }
      extOk 9222
      { lhr := JVal.obj [("audits", JVal.obj [])], report := JVal.str "<html></html>" }
      "./reports" "pdf" rfl (by decide) rfl (by decide) rfl rfl rfl rfl⟩
